import Mathlib

/-!
Verification of the liquidity-microstructure analytics pipeline.

Shallow embedding of the repository's analytics code:
  * `src/src/microstructure.py` — `compute_book_metrics`,
    `compute_liquidity_score`, `classify_liquidity_regime`,
    `assess_liquidity_risk`;
  * `src/src/data_generation.py` — `generate_order_book_snapshot`;
  * `src/ui/app.py` — `simulate_time_series`.

Python floats are modelled by `ℚ` (all inputs and intermediate values of
interest are finite decimals); the IEEE NaN that pandas produces for the
max/min of an empty series is modelled by `none : Option ℚ`, with arithmetic
on `Option ℚ` propagating `none` exactly as float arithmetic propagates NaN.
numpy's global random generator is modelled as a (seed, position) state
together with raw draw functions passed as parameters: `np.random.seed s`
resets the state to (s, 0) and each draw advances the position.
-/

namespace LiquidityPipeline

/-! ## Data model -/

inductive Side where
  | bid
  | ask
deriving DecidableEq, Repr

structure BookLevel where
  side : Side
  price : ℚ
  size : ℚ
deriving DecidableEq, Repr

/-- Result record of `compute_book_metrics`.  The four price-derived fields
are `Option ℚ`: `none` models the NaN that `bids["price"].max()` /
`asks["price"].min()` return for an empty side and that then propagates
through `spread` and `mid`. -/
structure BookMetrics where
  best_bid : Option ℚ
  best_ask : Option ℚ
  spread : Option ℚ
  mid : Option ℚ
  bid_depth : ℚ
  ask_depth : ℚ
  total_depth : ℚ
  imbalance : ℚ
deriving DecidableEq, Repr

/-- `pandas.Series.max` over the prices of a side: NaN (i.e. `none`) on an
empty side.  The `sort_values` calls in the source only reorder rows;
max, min and sum are order-independent, so they are elided. -/
def listMax : List ℚ → Option ℚ
  | [] => none
  | x :: xs =>
    match listMax xs with
    | none => some x
    | some m => some (max x m)

/-- `pandas.Series.min` over the prices of a side: NaN (`none`) when empty. -/
def listMin : List ℚ → Option ℚ
  | [] => none
  | x :: xs =>
    match listMin xs with
    | none => some x
    | some m => some (min x m)

/-- NaN-propagating subtraction of floats, for `spread = best_ask - best_bid`. -/
def optSub : Option ℚ → Option ℚ → Option ℚ
  | some a, some b => some (a - b)
  | _, _ => none

/-- NaN-propagating midpoint, for `mid = (best_bid + best_ask) / 2`. -/
def optMid : Option ℚ → Option ℚ → Option ℚ
  | some b, some a => some ((b + a) / 2)
  | _, _ => none

/-- `compute_book_metrics` from `src/src/microstructure.py`. -/
def compute_book_metrics (book : List BookLevel) : BookMetrics :=
  let bids := book.filter fun l => l.side = Side.bid
  let asks := book.filter fun l => l.side = Side.ask
  let best_bid := listMax (bids.map BookLevel.price)
  let best_ask := listMin (asks.map BookLevel.price)
  let spread := optSub best_ask best_bid
  let mid := optMid best_bid best_ask
  let bid_depth := (bids.map BookLevel.size).sum
  let ask_depth := (asks.map BookLevel.size).sum
  let total_depth := bid_depth + ask_depth
  let imbalance := if 0 < total_depth then (bid_depth - ask_depth) / total_depth else 0
  ⟨best_bid, best_ask, spread, mid, bid_depth, ask_depth, total_depth, imbalance⟩

/-- `compute_liquidity_score` from `src/src/microstructure.py`:
`if spread <= 0: spread = 1e-6; return total_depth / spread`. -/
def compute_liquidity_score (spread : ℚ) (total_depth : ℚ) : ℚ :=
  let s := if spread ≤ 0 then 1 / 1000000 else spread
  total_depth / s

/-- `classify_liquidity_regime` from `src/src/microstructure.py`
(thresholds 0.2 = 1/5, 0.3 = 3/10, 0.6 = 3/5, 0.5 = 1/2). -/
def classify_liquidity_regime (spread imbalance liquidity_score : ℚ) : String :=
  if liquidity_score > 500 ∧ |imbalance| < 1/5 ∧ spread < 3/10 then "high_liquidity"
  else if liquidity_score < 150 ∨ spread > 3/5 then "stressed"
  else if imbalance > 1/2 then "one_sided_buy"
  else if imbalance < -(1/2) then "one_sided_sell"
  else "normal"

/-! ## Spec-side reference definitions (written from the spec's words, for
refinement comparison with the source embeddings above) -/

/-- First-match evaluation of an ordered list of (predicate, label) rules;
`none` when no rule fires. -/
def firstMatchLabel {α : Type} (x : α) : List ((α → Bool) × String) → Option String
  | [] => none
  | (p, lbl) :: rest => if p x then some lbl else firstMatchLabel x rest

/-- The regime rule chain as the spec states it: fixed priority order,
first match wins, `normal` as the unconditional final rule. -/
def specRegimeRules : List ((ℚ × ℚ × ℚ → Bool) × String) :=
  [ (fun t => decide (t.2.2 > 500 ∧ |t.2.1| < 1/5 ∧ t.1 < 3/10), "high_liquidity")
  , (fun t => decide (t.2.2 < 150 ∨ t.1 > 3/5), "stressed")
  , (fun t => decide (t.2.1 > 1/2), "one_sided_buy")
  , (fun t => decide (t.2.1 < -(1/2)), "one_sided_sell")
  , (fun _ => true, "normal") ]

/-- The five regime labels. -/
def regimeLabels : List String :=
  ["high_liquidity", "stressed", "one_sided_buy", "one_sided_sell", "normal"]

/-! ## Claim C1 -/

/-- Claim C1: for every rational triple (spread, imbalance, liquidity_score),
`classify_liquidity_regime` returns exactly one of the five regime labels,
and its value is exactly the first-match evaluation, in the spec's fixed
priority order, of the five threshold rules (high_liquidity, stressed,
one_sided_buy, one_sided_sell, normal).  The classifier is a total Lean
function, hence deterministic: identical inputs give identical labels. -/
theorem classify_regime_total_first_match (spread imbalance liquidity_score : ℚ) :
    classify_liquidity_regime spread imbalance liquidity_score ∈ regimeLabels ∧
    firstMatchLabel (spread, imbalance, liquidity_score) specRegimeRules =
      some (classify_liquidity_regime spread imbalance liquidity_score) := by
  constructor
  · unfold classify_liquidity_regime regimeLabels
    split_ifs <;> simp
  · simp only [classify_liquidity_regime, firstMatchLabel, specRegimeRules,
      decide_eq_true_eq, if_true]
    split_ifs <;> simp_all

/-! ## Claim C5 -/

/-- Claim C5 counterexample: at spread = 1/5 and total_depth = 0 the score is
0, which is not strictly positive, so "returns a strictly positive real"
fails for total_depth = 0. -/
theorem liquidity_score_not_positive_at_zero_depth :
    compute_liquidity_score (1/5) 0 = 0 ∧ ¬ (0 < compute_liquidity_score (1/5) 0) := by
  constructor <;> norm_num [compute_liquidity_score]

/-- Claim C5 (amended): for every spread (including spread ≤ 0) and every
non-negative total_depth, `compute_liquidity_score` equals
total_depth / effective_spread with effective_spread = spread when
spread > 0 and the floor 1e-6 otherwise; the score is non-negative, and
strictly positive whenever total_depth is strictly positive. -/
theorem liquidity_score_formula_nonneg (spread total_depth : ℚ)
    (hd : 0 ≤ total_depth) :
    compute_liquidity_score spread total_depth =
      total_depth / (if 0 < spread then spread else 1 / 1000000) ∧
    0 ≤ compute_liquidity_score spread total_depth ∧
    (0 < total_depth → 0 < compute_liquidity_score spread total_depth) := by
  have heff : (0:ℚ) < (if 0 < spread then spread else 1 / 1000000) := by
    split <;> [assumption; norm_num]
  have hform : compute_liquidity_score spread total_depth =
      total_depth / (if 0 < spread then spread else 1 / 1000000) := by
    unfold compute_liquidity_score
    rcases le_or_lt spread 0 with h | h
    · simp [h, not_lt.mpr h]
    · simp [h, not_le.mpr h]
  refine ⟨hform, ?_, ?_⟩
  · rw [hform]; exact div_nonneg hd heff.le
  · intro hpos; rw [hform]; exact div_pos hpos heff

/-- Claim C5 amended-theorem witness at spread = 1/5, total_depth = 70:
score = 350 > 0. -/
theorem liquidity_score_formula_nonneg_witness :
    compute_liquidity_score (1/5) 70 = 70 / (if (0:ℚ) < 1/5 then 1/5 else 1 / 1000000) ∧
    0 ≤ compute_liquidity_score (1/5) 70 ∧
    ((0:ℚ) < 70 → 0 < compute_liquidity_score (1/5) 70) :=
  liquidity_score_formula_nonneg (1/5) 70 (by norm_num)

/-! ## Claim C7 -/

/-- Claim C7: the liquidity score is monotonically increasing in depth at any
fixed spread (for non-negative depths), and monotonically decreasing in
spread above the 1e-6 floor at any fixed non-negative depth. -/
theorem liquidity_score_monotone :
    (∀ spread d1 d2 : ℚ, 0 ≤ d1 → d1 ≤ d2 →
      compute_liquidity_score spread d1 ≤ compute_liquidity_score spread d2) ∧
    (∀ s1 s2 td : ℚ, 0 ≤ td → 1 / 1000000 < s1 → s1 ≤ s2 →
      compute_liquidity_score s2 td ≤ compute_liquidity_score s1 td) := by
  constructor
  · intro spread d1 d2 _ h12
    unfold compute_liquidity_score
    have heff : (0:ℚ) < (if spread ≤ 0 then 1 / 1000000 else spread) := by
      split
      · norm_num
      · linarith [not_le.mp (by assumption : ¬ spread ≤ 0)]
    exact div_le_div_of_nonneg_right h12 heff.le
  · intro s1 s2 td htd h1 h12
    have hs1 : (0:ℚ) < s1 := lt_trans (by norm_num) h1
    have hs2 : (0:ℚ) < s2 := lt_of_lt_of_le hs1 h12
    unfold compute_liquidity_score
    simp only [not_le.mpr hs1, not_le.mpr hs2, if_neg, if_false]
    exact div_le_div_of_nonneg_left htd hs1 h12

/-- Claim C7 witness: depth monotonicity at spread 1/5, depths 10 ≤ 20, and
spread monotonicity at depth 70, spreads 1/5 ≤ 2/5. -/
theorem liquidity_score_monotone_witness :
    compute_liquidity_score (1/5) 10 ≤ compute_liquidity_score (1/5) 20 ∧
    compute_liquidity_score (2/5) 70 ≤ compute_liquidity_score (1/5) 70 :=
  ⟨liquidity_score_monotone.1 (1/5) 10 20 (by norm_num) (by norm_num),
   liquidity_score_monotone.2 (1/5) (2/5) 70 (by norm_num) (by norm_num) (by norm_num)⟩

/-! ## Risk aggregator -/

/-- Result record of `assess_liquidity_risk` (the Python dict).  `lookback`
is echoed back exactly as requested, unclamped. -/
structure RiskAssessment where
  lookback : Int
  avg_spread : ℚ
  avg_liq_score : ℚ
  frac_stressed : ℚ
  frac_high_liq : ℚ
  risk_level : String
deriving DecidableEq, Repr

/-- The Python slice `xs[-lookback:]`: for positive lookback the last
`lookback` elements (the whole list when lookback exceeds the length);
for lookback = 0 the whole list (`xs[-0:] = xs[0:]`); for negative
lookback, `xs[-lookback:]` drops the first `|lookback|` elements. -/
def pyTail (lookback : Int) (xs : List α) : List α :=
  if 0 < lookback then xs.drop (xs.length - lookback.toNat)
  else if lookback = 0 then xs
  else xs.drop (-lookback).toNat

/-- `assess_liquidity_risk` from `src/src/microstructure.py`.  The function
performs no validation; the only failure mode is the ZeroDivisionError
raised by `sum(tail) / len(tail)` when a selected window is empty, which is
modelled by `none` (0.4 = 2/5, 0.8 = 4/5, 0.2 = 1/5, 0.5 = 1/2). -/
def assess_liquidity_risk (spreads liq_scores : List ℚ) (regimes : List String)
    (lookback : Int) : Option RiskAssessment :=
  let spreads_tail := pyTail lookback spreads
  let liq_tail := pyTail lookback liq_scores
  let regimes_tail := pyTail lookback regimes
  if spreads_tail.length = 0 ∨ regimes_tail.length = 0 ∨ liq_tail.length = 0 then
    none
  else
    let avg_spread := spreads_tail.sum / (spreads_tail.length : ℚ)
    let frac_stressed := (regimes_tail.count "stressed" : ℚ) / (regimes_tail.length : ℚ)
    let frac_high_liq := (regimes_tail.count "high_liquidity" : ℚ) / (regimes_tail.length : ℚ)
    let avg_liq_score := liq_tail.sum / (liq_tail.length : ℚ)
    let level :=
      if frac_stressed > 2/5 ∨ avg_spread > 4/5 ∨ avg_liq_score < 150 then "high"
      else if frac_stressed > 1/5 ∨ avg_spread > 1/2 ∨ avg_liq_score < 250 then "medium"
      else "low"
    some ⟨lookback, avg_spread, avg_liq_score, frac_stressed, frac_high_liq, level⟩

/-- The risk-level rule chain as the spec states it, first match wins:
high if frac_stressed > 0.4 or avg_spread > 0.8 or avg_liq_score < 150;
else medium if frac_stressed > 0.2 or avg_spread > 0.5 or avg_liq_score < 250;
else low. -/
def specRiskLevel (frac_stressed avg_spread avg_liq_score : ℚ) : String :=
  if frac_stressed > 2/5 ∨ avg_spread > 4/5 ∨ avg_liq_score < 150 then "high"
  else if frac_stressed > 1/5 ∨ avg_spread > 1/2 ∨ avg_liq_score < 250 then "medium"
  else "low"

/-! ## Claim C3 -/

/-- Claim C3: on any input whose selected windows are nonempty,
`assess_liquidity_risk` succeeds, its avg_spread / avg_liq_score are the
arithmetic means of the windows, its frac_stressed / frac_high_liq are
label counts divided by the window length, its risk_level is the spec's
first-match rule chain applied to those statistics, and any regime window
of length 10 holding 5 "stressed" labels forces risk_level = "high". -/
theorem assess_risk_level_rules (spreads liq_scores : List ℚ) (regimes : List String)
    (lookback : Int)
    (hs : pyTail lookback spreads ≠ [])
    (hr : pyTail lookback regimes ≠ [])
    (hl : pyTail lookback liq_scores ≠ []) :
    ∃ r : RiskAssessment,
      assess_liquidity_risk spreads liq_scores regimes lookback = some r ∧
      r.avg_spread = (pyTail lookback spreads).sum / ((pyTail lookback spreads).length : ℚ) ∧
      r.avg_liq_score =
        (pyTail lookback liq_scores).sum / ((pyTail lookback liq_scores).length : ℚ) ∧
      r.frac_stressed =
        ((pyTail lookback regimes).count "stressed" : ℚ) /
          ((pyTail lookback regimes).length : ℚ) ∧
      r.frac_high_liq =
        ((pyTail lookback regimes).count "high_liquidity" : ℚ) /
          ((pyTail lookback regimes).length : ℚ) ∧
      r.risk_level = specRiskLevel r.frac_stressed r.avg_spread r.avg_liq_score ∧
      ((pyTail lookback regimes).length = 10 →
        (pyTail lookback regimes).count "stressed" = 5 → r.risk_level = "high") := by
  rw [assess_liquidity_risk]
  rw [if_neg (by simp [List.length_eq_zero, hs, hr, hl])]
  refine ⟨_, rfl, rfl, rfl, rfl, rfl, rfl, ?_⟩
  intro hlen hcount
  have hfrac : ((pyTail lookback regimes).count "stressed" : ℚ) /
      ((pyTail lookback regimes).length : ℚ) = 1/2 := by
    rw [hlen, hcount]; norm_num
  simp only [hfrac]
  rw [if_pos (by norm_num)]

/-- Claim C3 witness: 10-step windows with 5 "stressed" labels yield fields
as computed and risk_level "high". -/
theorem assess_risk_level_rules_witness :
    ∃ r : RiskAssessment,
      assess_liquidity_risk [1,1,1,1,1,1,1,1,1,1] [300,300,300,300,300,300,300,300,300,300]
        ["stressed","stressed","stressed","stressed","stressed",
         "normal","normal","normal","normal","normal"] 10 = some r ∧
      r.avg_spread = (pyTail 10 ([1,1,1,1,1,1,1,1,1,1] : List ℚ)).sum /
        ((pyTail 10 ([1,1,1,1,1,1,1,1,1,1] : List ℚ)).length : ℚ) ∧
      r.avg_liq_score = (pyTail 10 ([300,300,300,300,300,300,300,300,300,300] : List ℚ)).sum /
        ((pyTail 10 ([300,300,300,300,300,300,300,300,300,300] : List ℚ)).length : ℚ) ∧
      r.frac_stressed =
        ((pyTail 10 ["stressed","stressed","stressed","stressed","stressed",
          "normal","normal","normal","normal","normal"]).count "stressed" : ℚ) /
          ((pyTail 10 ["stressed","stressed","stressed","stressed","stressed",
            "normal","normal","normal","normal","normal"]).length : ℚ) ∧
      r.frac_high_liq =
        ((pyTail 10 ["stressed","stressed","stressed","stressed","stressed",
          "normal","normal","normal","normal","normal"]).count "high_liquidity" : ℚ) /
          ((pyTail 10 ["stressed","stressed","stressed","stressed","stressed",
            "normal","normal","normal","normal","normal"]).length : ℚ) ∧
      r.risk_level = specRiskLevel r.frac_stressed r.avg_spread r.avg_liq_score ∧
      ((pyTail 10 ["stressed","stressed","stressed","stressed","stressed",
        "normal","normal","normal","normal","normal"]).length = 10 →
        (pyTail 10 ["stressed","stressed","stressed","stressed","stressed",
          "normal","normal","normal","normal","normal"]).count "stressed" = 5 →
        r.risk_level = "high") :=
  assess_risk_level_rules [1,1,1,1,1,1,1,1,1,1] [300,300,300,300,300,300,300,300,300,300]
    ["stressed","stressed","stressed","stressed","stressed",
     "normal","normal","normal","normal","normal"] 10
    (by decide) (by decide) (by decide)

/-! ## Claim C4 -/

/-- Claim C4 counterexample: with nonempty sequences of unequal lengths
(1 vs 2 vs 1) and the non-positive lookback 0, `assess_liquidity_risk`
succeeds instead of failing with an InputError. -/
theorem assess_risk_no_input_validation :
    (assess_liquidity_risk [1] [200, 300] ["normal"] 0).isSome = true := by
  decide

/-- Claim C4 (amended): `assess_liquidity_risk` validates nothing; it fails
(an uncaught ZeroDivisionError, modelled by `none`) exactly when one of the
three selected windows is empty.  Unequal sequence lengths and non-positive
lookbacks are accepted silently (lookback 0 selects the full series, a
negative lookback drops leading elements). -/
theorem assess_risk_fails_iff_empty_window (spreads liq_scores : List ℚ)
    (regimes : List String) (lookback : Int) :
    assess_liquidity_risk spreads liq_scores regimes lookback = none ↔
      (pyTail lookback spreads = [] ∨ pyTail lookback regimes = [] ∨
       pyTail lookback liq_scores = []) := by
  rw [assess_liquidity_risk]
  constructor
  · intro h
    by_contra hc
    push_neg at hc
    rw [if_neg (by simp [List.length_eq_zero, hc.1, hc.2.1, hc.2.2])] at h
    exact Option.some_ne_none _ h
  · intro h
    rw [if_pos (by simpa [List.length_eq_zero] using h)]

/-! ## Claim C6 -/

/-- Clamping: a positive lookback at least the length selects the whole list. -/
theorem pyTail_of_length_le (xs : List α) (lookback : Int)
    (hpos : 0 < lookback) (hlen : (xs.length : Int) ≤ lookback) :
    pyTail lookback xs = xs := by
  rw [pyTail, if_pos hpos]
  have : xs.length - lookback.toNat = 0 := by omega
  rw [this, List.drop_zero]

/-- Claim C6: for nonempty equal-length inputs of length n and any lookback
L ≥ n, `assess_liquidity_risk` succeeds with lookback L and with lookback n,
and the two results agree on avg_spread, avg_liq_score, frac_stressed,
frac_high_liq and risk_level: an over-long lookback clamps to the full
series. -/
theorem assess_risk_lookback_clamps (spreads liq_scores : List ℚ)
    (regimes : List String) (n : ℕ) (L : Int)
    (hs : spreads.length = n) (hl : liq_scores.length = n) (hr : regimes.length = n)
    (hn : 1 ≤ n) (hL : (n : Int) ≤ L) :
    ∃ r r' : RiskAssessment,
      assess_liquidity_risk spreads liq_scores regimes L = some r ∧
      assess_liquidity_risk spreads liq_scores regimes (n : Int) = some r' ∧
      r.avg_spread = r'.avg_spread ∧
      r.avg_liq_score = r'.avg_liq_score ∧
      r.frac_stressed = r'.frac_stressed ∧
      r.frac_high_liq = r'.frac_high_liq ∧
      r.risk_level = r'.risk_level := by
  have hLpos : (0 : Int) < L := lt_of_lt_of_le (by exact_mod_cast hn) hL
  have hnpos : (0 : Int) < (n : Int) := by exact_mod_cast hn
  have e1 : pyTail L spreads = spreads := pyTail_of_length_le _ _ hLpos (by omega)
  have e2 : pyTail L liq_scores = liq_scores := pyTail_of_length_le _ _ hLpos (by omega)
  have e3 : pyTail L regimes = regimes := pyTail_of_length_le _ _ hLpos (by omega)
  have f1 : pyTail (n : Int) spreads = spreads := pyTail_of_length_le _ _ hnpos (by omega)
  have f2 : pyTail (n : Int) liq_scores = liq_scores := pyTail_of_length_le _ _ hnpos (by omega)
  have f3 : pyTail (n : Int) regimes = regimes := pyTail_of_length_le _ _ hnpos (by omega)
  have hg : ¬ (spreads.length = 0 ∨ regimes.length = 0 ∨ liq_scores.length = 0) := by
    omega
  rw [assess_liquidity_risk, assess_liquidity_risk]
  simp only [e1, e2, e3, f1, f2, f3]
  rw [if_neg hg, if_neg hg]
  exact ⟨_, _, rfl, rfl, rfl, rfl, rfl, rfl, rfl⟩

/-- Claim C6 witness at n = 2, L = 7: both calls succeed and agree on all
five statistics. -/
theorem assess_risk_lookback_clamps_witness :
    ∃ r r' : RiskAssessment,
      assess_liquidity_risk [1, 2] [200, 300] ["normal", "stressed"] 7 = some r ∧
      assess_liquidity_risk [1, 2] [200, 300] ["normal", "stressed"] (2 : ℕ) = some r' ∧
      r.avg_spread = r'.avg_spread ∧
      r.avg_liq_score = r'.avg_liq_score ∧
      r.frac_stressed = r'.frac_stressed ∧
      r.frac_high_liq = r'.frac_high_liq ∧
      r.risk_level = r'.risk_level :=
  assess_risk_lookback_clamps [1, 2] [200, 300] ["normal", "stressed"] 2 7
    (by decide) (by decide) (by decide) (by decide) (by decide)

/-! ## Claims C2 and C8: book metrics -/

theorem listMax_eq_none_iff (l : List ℚ) : listMax l = none ↔ l = [] := by
  cases l with
  | nil => simp [listMax]
  | cons x xs =>
    simp only [listMax]
    cases listMax xs <;> simp

theorem listMin_eq_none_iff (l : List ℚ) : listMin l = none ↔ l = [] := by
  cases l with
  | nil => simp [listMin]
  | cons x xs =>
    simp only [listMin]
    cases listMin xs <;> simp

theorem decide_bid_eq_bid : decide (Side.bid = Side.bid) = true := rfl

theorem decide_ask_eq_bid : decide (Side.ask = Side.bid) = false := rfl

theorem decide_bid_eq_ask : decide (Side.bid = Side.ask) = false := rfl

theorem decide_ask_eq_ask : decide (Side.ask = Side.ask) = true := rfl

/-- Claim C2 counterexample: on a snapshot holding a single ask level and no
bid level, `compute_book_metrics` does not fail: it returns a record in
which best_bid, spread and mid are NaN (`none`), silent NaN propagation. -/
theorem book_metrics_nan_on_missing_side :
    compute_book_metrics [⟨Side.ask, 101, 10⟩] =
      ⟨none, some 101, none, none, 0, 10, 10, -1⟩ := by
  simp only [compute_book_metrics, List.filter, listMax, listMin, optSub, optMid,
    decide_bid_eq_bid, decide_ask_eq_bid, decide_bid_eq_ask, decide_ask_eq_ask,
    List.map, List.sum_cons, List.sum_nil]
  norm_num

/-- Claim C2 (amended): `compute_book_metrics` never signals an error.  On a
snapshot with at least one bid and at least one ask level it returns a fully
numeric record (best_bid, best_ask, spread and mid all defined); on a
snapshot missing the bid (resp. ask) side it silently returns a record whose
best_bid (resp. best_ask), spread and mid are NaN (`none`). -/
theorem book_metrics_defined_iff_both_sides (book : List BookLevel) :
    ((book.filter fun l => l.side = Side.bid) ≠ [] →
     (book.filter fun l => l.side = Side.ask) ≠ [] →
      (compute_book_metrics book).best_bid.isSome ∧
      (compute_book_metrics book).best_ask.isSome ∧
      (compute_book_metrics book).spread.isSome ∧
      (compute_book_metrics book).mid.isSome) ∧
    ((book.filter fun l => l.side = Side.bid) = [] →
      (compute_book_metrics book).best_bid = none ∧
      (compute_book_metrics book).spread = none ∧
      (compute_book_metrics book).mid = none) ∧
    ((book.filter fun l => l.side = Side.ask) = [] →
      (compute_book_metrics book).best_ask = none ∧
      (compute_book_metrics book).spread = none ∧
      (compute_book_metrics book).mid = none) := by
  simp only [compute_book_metrics]
  refine ⟨fun hb ha => ?_, fun hb => ?_, fun ha => ?_⟩
  · have hb' : (book.filter fun l => l.side = Side.bid).map BookLevel.price ≠ [] := by
      simpa using hb
    have ha' : (book.filter fun l => l.side = Side.ask).map BookLevel.price ≠ [] := by
      simpa using ha
    obtain ⟨b, hbmax⟩ := Option.ne_none_iff_exists'.mp
      (fun h => hb' ((listMax_eq_none_iff _).mp h))
    obtain ⟨a, hamin⟩ := Option.ne_none_iff_exists'.mp
      (fun h => ha' ((listMin_eq_none_iff _).mp h))
    simp [hbmax, hamin, optSub, optMid]
  · have : listMax ((book.filter fun l => l.side = Side.bid).map BookLevel.price) = none := by
      rw [listMax_eq_none_iff]; simp [hb]
    cases hmin : listMin ((book.filter fun l => l.side = Side.ask).map BookLevel.price) <;>
      simp [this, hmin, optSub, optMid]
  · have : listMin ((book.filter fun l => l.side = Side.ask).map BookLevel.price) = none := by
      rw [listMin_eq_none_iff]; simp [ha]
    cases hmax : listMax ((book.filter fun l => l.side = Side.bid).map BookLevel.price) <;>
      simp [this, hmax, optSub, optMid]

/-- Claim C2 amended-theorem witness: a one-bid one-ask book yields defined
best_bid, best_ask, spread and mid. -/
theorem book_metrics_defined_iff_both_sides_witness :
    (compute_book_metrics [⟨Side.bid, 99, 10⟩, ⟨Side.ask, 101, 10⟩]).best_bid.isSome ∧
    (compute_book_metrics [⟨Side.bid, 99, 10⟩, ⟨Side.ask, 101, 10⟩]).best_ask.isSome ∧
    (compute_book_metrics [⟨Side.bid, 99, 10⟩, ⟨Side.ask, 101, 10⟩]).spread.isSome ∧
    (compute_book_metrics [⟨Side.bid, 99, 10⟩, ⟨Side.ask, 101, 10⟩]).mid.isSome :=
  (book_metrics_defined_iff_both_sides [⟨Side.bid, 99, 10⟩, ⟨Side.ask, 101, 10⟩]).1
    (by decide) (by decide)

/-- Claim C8 counterexample: a balanced book (one bid of size 10, one ask of
size 10, all sizes non-negative) has imbalance 0 with total_depth 20 ≠ 0, so
"imbalance equals 0 exactly when total_depth = 0" fails. -/
theorem imbalance_zero_with_positive_depth :
    ([(⟨Side.bid, 99, 10⟩ : BookLevel), ⟨Side.ask, 101, 10⟩].all
      fun l => decide (0 ≤ l.size)) = true ∧
    (compute_book_metrics [⟨Side.bid, 99, 10⟩, ⟨Side.ask, 101, 10⟩]).imbalance = 0 ∧
    (compute_book_metrics [⟨Side.bid, 99, 10⟩, ⟨Side.ask, 101, 10⟩]).total_depth = 20 := by
  refine ⟨by decide, ?_, ?_⟩ <;>
    · simp only [compute_book_metrics, List.filter, listMax, listMin, optSub, optMid,
        decide_bid_eq_bid, decide_ask_eq_bid, decide_bid_eq_ask, decide_ask_eq_ask,
        List.map, List.sum_cons, List.sum_nil]
      norm_num

/-- Claim C8 (amended): for every snapshot with non-negative sizes,
the returned imbalance lies in [-1, 1], and it equals 0 exactly when
bid_depth = ask_depth (in particular whenever total_depth = 0, but also for
any balanced book of positive depth). -/
theorem imbalance_bounds (book : List BookLevel)
    (hsz : ∀ l ∈ book, 0 ≤ l.size) :
    (-1 ≤ (compute_book_metrics book).imbalance ∧
      (compute_book_metrics book).imbalance ≤ 1) ∧
    ((compute_book_metrics book).imbalance = 0 ↔
      (compute_book_metrics book).bid_depth = (compute_book_metrics book).ask_depth) := by
  simp only [compute_book_metrics]
  set b := ((book.filter fun l => l.side = Side.bid).map BookLevel.size).sum with hbdef
  set a := ((book.filter fun l => l.side = Side.ask).map BookLevel.size).sum with hadef
  have hb : 0 ≤ b := by
    rw [hbdef]
    refine List.sum_nonneg fun x hx => ?_
    obtain ⟨l, hl, rfl⟩ := List.mem_map.mp hx
    exact hsz l (List.mem_of_mem_filter hl)
  have ha : 0 ≤ a := by
    rw [hadef]
    refine List.sum_nonneg fun x hx => ?_
    obtain ⟨l, hl, rfl⟩ := List.mem_map.mp hx
    exact hsz l (List.mem_of_mem_filter hl)
  by_cases ht : 0 < b + a
  · rw [if_pos ht]
    have htne : b + a ≠ 0 := ne_of_gt ht
    refine ⟨⟨?_, ?_⟩, ?_⟩
    · rw [le_div_iff₀ ht]; linarith
    · rw [div_le_one ht]; linarith
    · rw [div_eq_zero_iff]
      constructor
      · rintro (h | h)
        · linarith [sub_eq_zero.mp h]
        · exact absurd h htne
      · intro h; left; rw [h]; ring
  · rw [if_neg ht]
    have hb0 : b = 0 := by linarith
    have ha0 : a = 0 := by linarith
    exact ⟨⟨by norm_num, by norm_num⟩, by simp [hb0, ha0]⟩

/-- Claim C8 amended-theorem witness: the balanced one-bid one-ask book has
imbalance 0, within [-1, 1], with equal side depths. -/
theorem imbalance_bounds_witness :
    (-1 ≤ (compute_book_metrics [⟨Side.bid, 99, 10⟩, ⟨Side.ask, 101, 10⟩]).imbalance ∧
      (compute_book_metrics [⟨Side.bid, 99, 10⟩, ⟨Side.ask, 101, 10⟩]).imbalance ≤ 1) ∧
    ((compute_book_metrics [⟨Side.bid, 99, 10⟩, ⟨Side.ask, 101, 10⟩]).imbalance = 0 ↔
      (compute_book_metrics [⟨Side.bid, 99, 10⟩, ⟨Side.ask, 101, 10⟩]).bid_depth =
        (compute_book_metrics [⟨Side.bid, 99, 10⟩, ⟨Side.ask, 101, 10⟩]).ask_depth) :=
  imbalance_bounds [⟨Side.bid, 99, 10⟩, ⟨Side.ask, 101, 10⟩]
    (by intro l hl; fin_cases hl <;> norm_num)

/-! ## Snapshot generation and the simulation loop

numpy's global generator is a (seed, position) state; `np.random.seed s`
resets it to (s, 0).  The concrete pseudo-random algorithm is external to
the repository, so the raw draws are parameters: `rawNormal seed pos` is
the pos-th standard-normal draw of the stream seeded with seed, and
`raw seed pos` the pos-th raw natural draw, which `np.random.randint lo hi`
maps into [lo, hi) by `lo + raw % (hi - lo)`. -/

structure NpRandomState where
  seed : ℕ
  pos : ℕ
deriving DecidableEq, Repr

/-- `np.random.seed s`: reset the global state, forgetting its past. -/
def np_seed (s : ℕ) (_st : NpRandomState) : NpRandomState := ⟨s, 0⟩

/-- `np.random.normal(0, sigma)`: one draw, advancing the stream. -/
def np_normal (rawNormal : ℕ → ℕ → ℚ) (sigma : ℚ) (st : NpRandomState) :
    ℚ × NpRandomState :=
  (sigma * rawNormal st.seed st.pos, ⟨st.seed, st.pos + 1⟩)

/-- `np.random.randint(lo, hi, size=n)`: n draws uniform on [lo, hi). -/
def np_randint_list (raw : ℕ → ℕ → ℕ) (lo hi : ℕ) :
    ℕ → NpRandomState → List ℕ × NpRandomState
  | 0, st => ([], st)
  | n + 1, st =>
    let v := lo + raw st.seed st.pos % (hi - lo)
    let rest := np_randint_list raw lo hi n ⟨st.seed, st.pos + 1⟩
    (v :: rest.1, rest.2)

/-- `generate_order_book_snapshot` from `src/src/data_generation.py`:
n_levels bid levels priced mid - 0.1·k and n_levels ask levels priced
mid + 0.1·k (k = 1..n_levels), with sizes drawn by
`np.random.randint(10, 50, size=n_levels)` for each side. -/
def generate_order_book_snapshot (raw : ℕ → ℕ → ℕ) (mid : ℚ) (n_levels : ℕ)
    (st : NpRandomState) : List BookLevel × NpRandomState :=
  let bid_prices := (List.range n_levels).map fun (k : ℕ) => mid - ((k : ℚ) + 1) / 10
  let ask_prices := (List.range n_levels).map fun (k : ℕ) => mid + ((k : ℚ) + 1) / 10
  let r1 := np_randint_list raw 10 50 n_levels st
  let r2 := np_randint_list raw 10 50 n_levels r1.2
  let bids := List.zipWith (fun (p : ℚ) (s : ℕ) => BookLevel.mk Side.bid p (s : ℚ)) bid_prices r1.1
  let asks := List.zipWith (fun (p : ℚ) (s : ℕ) => BookLevel.mk Side.ask p (s : ℚ)) ask_prices r2.1
  (bids ++ asks, r2.2)

/-- The parallel time series accumulated by `simulate_time_series` in
`src/ui/app.py`.  spreads, mids and liq_scores carry the float values of
the Python lists, so they are `Option ℚ` (NaN-capable); imbalances are
always numeric; regimes are labels. -/
structure SimResult where
  spreads : List (Option ℚ)
  mids : List (Option ℚ)
  imbalances : List ℚ
  liq_scores : List (Option ℚ)
  regimes : List String
deriving DecidableEq, Repr

/-- The per-step loop body of `simulate_time_series`, iterated n times:
perturb the mid, generate a book, extract metrics, score, classify, append.
When metrics.spread is NaN (`none`, a book with a missing side — never the
case for a generated book, which has both sides) the Python floats
flow on: `compute_liquidity_score` keeps the NaN denominator (NaN <= 0 is
false) and returns NaN, and in `classify_liquidity_regime` every comparison
against NaN is false, so only the imbalance rules and the default can
fire; the match's second arm transcribes that. -/
def simulate_steps (rawNormal : ℕ → ℕ → ℚ) (raw : ℕ → ℕ → ℕ) (drift_sigma : ℚ)
    (n_levels : ℕ) : ℕ → ℚ → NpRandomState → SimResult × NpRandomState
  | 0, _, st => (⟨[], [], [], [], []⟩, st)
  | n + 1, mid, st =>
    let d := np_normal rawNormal drift_sigma st
    let mid' := mid + d.1
    let g := generate_order_book_snapshot raw mid' n_levels d.2
    let metrics := compute_book_metrics g.1
    let liq_score := metrics.spread.map fun s => compute_liquidity_score s metrics.total_depth
    let regime :=
      match metrics.spread, liq_score with
      | some s, some l => classify_liquidity_regime s metrics.imbalance l
      | _, _ =>
        if metrics.imbalance > 1/2 then "one_sided_buy"
        else if metrics.imbalance < -(1/2) then "one_sided_sell"
        else "normal"
    let rest := simulate_steps rawNormal raw drift_sigma n_levels n mid' g.2
    (⟨metrics.spread :: rest.1.spreads, metrics.mid :: rest.1.mids,
      metrics.imbalance :: rest.1.imbalances, liq_score :: rest.1.liq_scores,
      regime :: rest.1.regimes⟩, rest.2)

/-- `simulate_time_series` from `src/ui/app.py`: it begins with
`np.random.seed(0)` — the seed is hard-coded — and then runs the loop. -/
def simulate_time_series (rawNormal : ℕ → ℕ → ℚ) (raw : ℕ → ℕ → ℕ)
    (n_steps : ℕ) (mid_start drift_sigma : ℚ) (n_levels : ℕ)
    (st : NpRandomState) : SimResult × NpRandomState :=
  simulate_steps rawNormal raw drift_sigma n_levels n_steps mid_start (np_seed 0 st)

/-! ## Claim C9 -/

/-- Claim C9: for any pseudo-random algorithm (rawNormal, raw) and any
parameters, two invocations of `simulate_time_series` — whatever the global
random state each one starts from — return identical spreads, mids,
imbalances, liq_scores and regimes: the `np.random.seed(0)` call at the top
of the run makes the output a function of the seed and parameters alone. -/
theorem run_simulation_reproducible (rawNormal : ℕ → ℕ → ℚ) (raw : ℕ → ℕ → ℕ)
    (n_steps : ℕ) (mid_start drift_sigma : ℚ) (n_levels : ℕ)
    (st st' : NpRandomState) :
    (simulate_time_series rawNormal raw n_steps mid_start drift_sigma n_levels st).1 =
    (simulate_time_series rawNormal raw n_steps mid_start drift_sigma n_levels st').1 := by
  rfl

/-! ## Claim C10 -/

theorem listMax_mem (l : List ℚ) (m : ℚ) (h : listMax l = some m) : m ∈ l := by
  induction l with
  | nil => simp [listMax] at h
  | cons x xs ih =>
    rw [listMax] at h
    cases hxs : listMax xs with
    | none => rw [hxs] at h; simp_all
    | some m' =>
      rw [hxs] at h
      simp only [Option.some_inj] at h
      rcases max_choice x m' with hc | hc
      · simp [← h, hc]
      · rw [hc] at h
        exact List.mem_cons_of_mem _ (ih (h ▸ hxs))

theorem listMax_is_ub (l : List ℚ) (m : ℚ) (h : listMax l = some m) :
    ∀ y ∈ l, y ≤ m := by
  induction l generalizing m with
  | nil => simp
  | cons x xs ih =>
    rw [listMax] at h
    cases hxs : listMax xs with
    | none =>
      rw [hxs] at h
      have : xs = [] := (listMax_eq_none_iff xs).mp hxs
      simp_all
    | some m' =>
      rw [hxs] at h
      simp only [Option.some_inj] at h
      intro y hy
      rcases List.mem_cons.mp hy with rfl | hy'
      · rw [← h]; exact le_max_left _ _
      · exact le_trans (ih m' hxs y hy') (by rw [← h]; exact le_max_right _ _)

theorem listMax_eq_some (l : List ℚ) (m : ℚ) (hmem : m ∈ l)
    (hub : ∀ y ∈ l, y ≤ m) : listMax l = some m := by
  cases hl : listMax l with
  | none =>
    rw [listMax_eq_none_iff] at hl
    subst hl; simp at hmem
  | some m' =>
    have h1 : m' ≤ m := hub m' (listMax_mem l m' hl)
    have h2 : m ≤ m' := listMax_is_ub l m' hl m hmem
    rw [le_antisymm h1 h2]

theorem listMin_mem (l : List ℚ) (m : ℚ) (h : listMin l = some m) : m ∈ l := by
  induction l with
  | nil => simp [listMin] at h
  | cons x xs ih =>
    rw [listMin] at h
    cases hxs : listMin xs with
    | none => rw [hxs] at h; simp_all
    | some m' =>
      rw [hxs] at h
      simp only [Option.some_inj] at h
      rcases min_choice x m' with hc | hc
      · simp [← h, hc]
      · rw [hc] at h
        exact List.mem_cons_of_mem _ (ih (h ▸ hxs))

theorem listMin_is_lb (l : List ℚ) (m : ℚ) (h : listMin l = some m) :
    ∀ y ∈ l, m ≤ y := by
  induction l generalizing m with
  | nil => simp
  | cons x xs ih =>
    rw [listMin] at h
    cases hxs : listMin xs with
    | none =>
      rw [hxs] at h
      have : xs = [] := (listMin_eq_none_iff xs).mp hxs
      simp_all
    | some m' =>
      rw [hxs] at h
      simp only [Option.some_inj] at h
      intro y hy
      rcases List.mem_cons.mp hy with rfl | hy'
      · rw [← h]; exact min_le_left _ _
      · exact le_trans (by rw [← h]; exact min_le_right _ _) (ih m' hxs y hy')

theorem listMin_eq_some (l : List ℚ) (m : ℚ) (hmem : m ∈ l)
    (hlb : ∀ y ∈ l, m ≤ y) : listMin l = some m := by
  cases hl : listMin l with
  | none =>
    rw [listMin_eq_none_iff] at hl
    subst hl; simp at hmem
  | some m' =>
    have h1 : m ≤ m' := hlb m' (listMin_mem l m' hl)
    have h2 : m' ≤ m := listMin_is_lb l m' hl m hmem
    rw [le_antisymm h2 h1]

theorem np_randint_list_length (raw : ℕ → ℕ → ℕ) (lo hi : ℕ) :
    ∀ (n : ℕ) (st : NpRandomState), (np_randint_list raw lo hi n st).1.length = n := by
  intro n
  induction n with
  | zero => intro st; rfl
  | succ n ih =>
    intro st
    rw [np_randint_list]
    simp [ih]

theorem np_randint_list_bounds (raw : ℕ → ℕ → ℕ) :
    ∀ (n : ℕ) (st : NpRandomState) (v : ℕ),
      v ∈ (np_randint_list raw 10 50 n st).1 → 10 ≤ v ∧ v ≤ 49 := by
  intro n
  induction n with
  | zero => intro st v hv; simp [np_randint_list] at hv
  | succ n ih =>
    intro st v hv
    rw [np_randint_list] at hv
    rcases List.mem_cons.mp hv with rfl | hv'
    · have : raw st.seed st.pos % (50 - 10) < 40 := Nat.mod_lt _ (by norm_num)
      omega
    · exact ih _ v hv'

theorem zipWith_mk_side (sd : Side) :
    ∀ (ps : List ℚ) (ss : List ℕ) (l : BookLevel),
      l ∈ List.zipWith (fun (p : ℚ) (s : ℕ) => BookLevel.mk sd p (s : ℚ)) ps ss → l.side = sd := by
  intro ps
  induction ps with
  | nil => simp
  | cons p ps ih =>
    intro ss l hl
    cases ss with
    | nil => simp at hl
    | cons s ss =>
      rcases List.mem_cons.mp hl with rfl | hl'
      · rfl
      · exact ih ss l hl'

theorem zipWith_mk_size (sd : Side) :
    ∀ (ps : List ℚ) (ss : List ℕ) (l : BookLevel),
      l ∈ List.zipWith (fun (p : ℚ) (s : ℕ) => BookLevel.mk sd p (s : ℚ)) ps ss →
        ∃ s ∈ ss, l.size = (s : ℚ) := by
  intro ps
  induction ps with
  | nil => simp
  | cons p ps ih =>
    intro ss l hl
    cases ss with
    | nil => simp at hl
    | cons s ss =>
      rcases List.mem_cons.mp hl with rfl | hl'
      · exact ⟨s, List.mem_cons_self _ _, rfl⟩
      · obtain ⟨s', hs', he⟩ := ih ss l hl'
        exact ⟨s', List.mem_cons_of_mem _ hs', he⟩

theorem zipWith_mk_map_price (sd : Side) :
    ∀ (ps : List ℚ) (ss : List ℕ), ps.length = ss.length →
      (List.zipWith (fun (p : ℚ) (s : ℕ) => BookLevel.mk sd p (s : ℚ)) ps ss).map BookLevel.price = ps := by
  intro ps
  induction ps with
  | nil => simp
  | cons p ps ih =>
    intro ss hlen
    cases ss with
    | nil => simp at hlen
    | cons s ss =>
      simp only [List.zipWith_cons_cons, List.map_cons, List.cons.injEq]
      exact ⟨by simp, ih ss (by simpa using hlen)⟩

/-- Claim C10: for every mid price, every n_levels ≥ 1, every raw draw
stream and every incoming random state, the generated snapshot has exactly
n_levels bid levels priced mid - 0.1k and n_levels ask levels priced
mid + 0.1k (k = 1..n_levels), every size a natural number in [10, 49]; its
metrics have best_bid = mid - 0.1, best_ask = mid + 0.1 and spread exactly
0.2, the book is not crossed, and both sides being nonempty, the metrics
extractor's missing-side NaN case is unreachable from the simulation. -/
theorem generated_book_well_formed (raw : ℕ → ℕ → ℕ) (mid : ℚ) (n_levels : ℕ)
    (st : NpRandomState) (hn : 1 ≤ n_levels) :
    ((generate_order_book_snapshot raw mid n_levels st).1.filter
        fun l => l.side = Side.bid).map BookLevel.price =
      (List.range n_levels).map (fun (k : ℕ) => mid - ((k : ℚ) + 1) / 10) ∧
    ((generate_order_book_snapshot raw mid n_levels st).1.filter
        fun l => l.side = Side.ask).map BookLevel.price =
      (List.range n_levels).map (fun (k : ℕ) => mid + ((k : ℚ) + 1) / 10) ∧
    ((generate_order_book_snapshot raw mid n_levels st).1.filter
        fun l => l.side = Side.bid).length = n_levels ∧
    ((generate_order_book_snapshot raw mid n_levels st).1.filter
        fun l => l.side = Side.ask).length = n_levels ∧
    (∀ l ∈ (generate_order_book_snapshot raw mid n_levels st).1,
      ∃ s : ℕ, l.size = (s : ℚ) ∧ 10 ≤ s ∧ s ≤ 49) ∧
    (compute_book_metrics (generate_order_book_snapshot raw mid n_levels st).1).best_bid =
      some (mid - 1/10) ∧
    (compute_book_metrics (generate_order_book_snapshot raw mid n_levels st).1).best_ask =
      some (mid + 1/10) ∧
    (compute_book_metrics (generate_order_book_snapshot raw mid n_levels st).1).spread =
      some (1/5) ∧
    mid - 1/10 < mid + 1/10 := by
  have hlen1 := np_randint_list_length raw 10 50 n_levels st
  have hlen2 := np_randint_list_length raw 10 50 n_levels
    (np_randint_list raw 10 50 n_levels st).2
  set bp := (List.range n_levels).map (fun (k : ℕ) => mid - ((k : ℚ) + 1) / 10) with hbp
  set ap := (List.range n_levels).map (fun (k : ℕ) => mid + ((k : ℚ) + 1) / 10) with hap
  set bs := (np_randint_list raw 10 50 n_levels st).1 with hbs
  set as2 := (np_randint_list raw 10 50 n_levels
    (np_randint_list raw 10 50 n_levels st).2).1 with has2
  set bids := List.zipWith (fun (p : ℚ) (s : ℕ) => BookLevel.mk Side.bid p (s : ℚ)) bp bs with hbids
  set asks := List.zipWith (fun (p : ℚ) (s : ℕ) => BookLevel.mk Side.ask p (s : ℚ)) ap as2 with hasks
  have hbook : (generate_order_book_snapshot raw mid n_levels st).1 = bids ++ asks := rfl
  have hfb : (bids ++ asks).filter (fun l => decide (l.side = Side.bid)) = bids := by
    rw [List.filter_append]
    have h1 : bids.filter (fun l => decide (l.side = Side.bid)) = bids :=
      List.filter_eq_self.mpr fun l hl => by
        simp [zipWith_mk_side Side.bid bp bs l hl]
    have h2 : asks.filter (fun l => decide (l.side = Side.bid)) = [] :=
      List.filter_eq_nil_iff.mpr fun l hl => by
        simp [zipWith_mk_side Side.ask ap as2 l hl]
    rw [h1, h2, List.append_nil]
  have hfa : (bids ++ asks).filter (fun l => decide (l.side = Side.ask)) = asks := by
    rw [List.filter_append]
    have h1 : bids.filter (fun l => decide (l.side = Side.ask)) = [] :=
      List.filter_eq_nil_iff.mpr fun l hl => by
        simp [zipWith_mk_side Side.bid bp bs l hl]
    have h2 : asks.filter (fun l => decide (l.side = Side.ask)) = asks :=
      List.filter_eq_self.mpr fun l hl => by
        simp [zipWith_mk_side Side.ask ap as2 l hl]
    rw [h1, h2, List.nil_append]
  have hlbp : bp.length = bs.length := by rw [hbp, hbs]; simp [hlen1]
  have hlap : ap.length = as2.length := by rw [hap, has2]; simp [hlen2]
  have hmb : bids.map BookLevel.price = bp := zipWith_mk_map_price Side.bid bp bs hlbp
  have hma : asks.map BookLevel.price = ap := zipWith_mk_map_price Side.ask ap as2 hlap
  have hmaxb : listMax bp = some (mid - 1/10) := by
    apply listMax_eq_some
    · rw [hbp]
      refine List.mem_map.mpr ⟨0, List.mem_range.mpr (by omega), by norm_num⟩
    · intro y hy
      rw [hbp] at hy
      obtain ⟨k, _, rfl⟩ := List.mem_map.mp hy
      have hk0 : (0:ℚ) ≤ (k : ℚ) := Nat.cast_nonneg k
      have : (1:ℚ)/10 ≤ ((k : ℚ) + 1)/10 := by linarith
      linarith
  have hmina : listMin ap = some (mid + 1/10) := by
    apply listMin_eq_some
    · rw [hap]
      refine List.mem_map.mpr ⟨0, List.mem_range.mpr (by omega), by norm_num⟩
    · intro y hy
      rw [hap] at hy
      obtain ⟨k, _, rfl⟩ := List.mem_map.mp hy
      have hk0 : (0:ℚ) ≤ (k : ℚ) := Nat.cast_nonneg k
      have : (1:ℚ)/10 ≤ ((k : ℚ) + 1)/10 := by linarith
      linarith
  refine ⟨by rw [hbook, hfb, hmb], by rw [hbook, hfa, hma], ?_, ?_, ?_, ?_, ?_, ?_, ?_⟩
  · have := congrArg List.length (hmb)
    rw [hbook, hfb]
    simpa [hbp] using this
  · have := congrArg List.length (hma)
    rw [hbook, hfa]
    simpa [hap] using this
  · intro l hl
    rw [hbook] at hl
    rcases List.mem_append.mp hl with h | h
    · obtain ⟨s, hs, he⟩ := zipWith_mk_size Side.bid bp bs l h
      obtain ⟨h10, h49⟩ := np_randint_list_bounds raw n_levels st s (hbs ▸ hs)
      exact ⟨s, he, h10, h49⟩
    · obtain ⟨s, hs, he⟩ := zipWith_mk_size Side.ask ap as2 l h
      obtain ⟨h10, h49⟩ := np_randint_list_bounds raw n_levels _ s (has2 ▸ hs)
      exact ⟨s, he, h10, h49⟩
  · show listMax (((bids ++ asks).filter fun l => l.side = Side.bid).map BookLevel.price) =
      some (mid - 1/10)
    rw [hfb, hmb, hmaxb]
  · show listMin (((bids ++ asks).filter fun l => l.side = Side.ask).map BookLevel.price) =
      some (mid + 1/10)
    rw [hfa, hma, hmina]
  · show optSub
      (listMin (((bids ++ asks).filter fun l => l.side = Side.ask).map BookLevel.price))
      (listMax (((bids ++ asks).filter fun l => l.side = Side.bid).map BookLevel.price)) =
      some (1/5)
    rw [hfa, hma, hmina, hfb, hmb, hmaxb]
    simp only [optSub, Option.some_inj]
    ring_nf
  · linarith [show (0:ℚ) < 1/10 by norm_num]

/-- Claim C10 witness at mid = 100, n_levels = 2, the zero draw stream and
the fresh random state. -/
theorem generated_book_well_formed_witness :
    ((generate_order_book_snapshot (fun _ _ => 0) 100 2 ⟨0, 0⟩).1.filter
        fun l => l.side = Side.bid).map BookLevel.price =
      (List.range 2).map (fun (k : ℕ) => 100 - ((k : ℚ) + 1) / 10) ∧
    ((generate_order_book_snapshot (fun _ _ => 0) 100 2 ⟨0, 0⟩).1.filter
        fun l => l.side = Side.ask).map BookLevel.price =
      (List.range 2).map (fun (k : ℕ) => 100 + ((k : ℚ) + 1) / 10) ∧
    ((generate_order_book_snapshot (fun _ _ => 0) 100 2 ⟨0, 0⟩).1.filter
        fun l => l.side = Side.bid).length = 2 ∧
    ((generate_order_book_snapshot (fun _ _ => 0) 100 2 ⟨0, 0⟩).1.filter
        fun l => l.side = Side.ask).length = 2 ∧
    (∀ l ∈ (generate_order_book_snapshot (fun _ _ => 0) 100 2 ⟨0, 0⟩).1,
      ∃ s : ℕ, l.size = (s : ℚ) ∧ 10 ≤ s ∧ s ≤ 49) ∧
    (compute_book_metrics (generate_order_book_snapshot (fun _ _ => 0) 100 2 ⟨0, 0⟩).1).best_bid =
      some (100 - 1/10) ∧
    (compute_book_metrics (generate_order_book_snapshot (fun _ _ => 0) 100 2 ⟨0, 0⟩).1).best_ask =
      some (100 + 1/10) ∧
    (compute_book_metrics (generate_order_book_snapshot (fun _ _ => 0) 100 2 ⟨0, 0⟩).1).spread =
      some (1/5) ∧
    (100:ℚ) - 1/10 < 100 + 1/10 :=
  generated_book_well_formed (fun _ _ => 0) 100 2 ⟨0, 0⟩ (by norm_num)

end LiquidityPipeline
